import Mathlib

/-!
# FRA-Connect backend — shallow embedding

A shallow embedding of `backend/server.py` (FastAPI + MongoDB backend of the
Forest Rights Atlas). The Mongo collections are modelled as Lean lists of
records, one structure per pydantic model; each route handler becomes a pure
function threading the database state explicitly.  Conventions:

* `datetime` values are modelled as `Nat` (an abstract monotone clock);
  `datetime.now()` (naive, server-local) and `datetime.now(timezone.utc)`
  are *distinct* clock readings and are passed as separate parameters where
  the source calls both (`create_forest_claim`).
* `uuid.uuid4()` results are modelled as parameters: a fresh 128-bit `Nat`
  where the hex rendering matters, a fresh `String` where the value is opaque.
* Python truthiness (`if s:` on `Optional[str]` / dict values) is modelled
  explicitly: `None` and empty strings/containers are falsy.
* pydantic models ignore unexpected keyword arguments (default `Extra.ignore`),
  so `Model(**d)` keeps exactly the declared fields; this matters for
  `register_user` (the `hashed_password` key is dropped by `User(**user_dict)`)
  and for reading claim documents that carry a `notes` key.
* floats (`total_area`, `ocr_accuracy`, …) are modelled as `Rat`; the code
  performs no floating-point arithmetic on them, it only stores literals.
-/

namespace FRA

/-- A JSON-like document value (the `Dict[str, Any]` payloads: coordinates,
ai_recommendation, …). -/
inductive Val where
  | str (s : String)
  | num (n : Nat)
  | rat (q : Rat)
  | bool (b : Bool)
  | null
  | arr (xs : List Val)
  | dict (kvs : List (String × Val))

/-- Python truthiness of a value: empty strings/containers, `0`, `False` and
`None` are falsy. -/
def Val.truthy : Val → Bool
  | .str s => !s.isEmpty
  | .num n => n != 0
  | .rat q => q != 0
  | .bool b => b
  | .null => false
  | .arr xs => !xs.isEmpty
  | .dict kvs => !kvs.isEmpty

/-- Truthiness of an `Optional[str]` (`if s:`): `None` and `""` are falsy. -/
def truthyOS : Option String → Bool
  | none => false
  | some s => !s.isEmpty

/-- Truthiness of an optional document value (`if d:`). -/
def truthyOV : Option Val → Bool
  | none => false
  | some v => v.truthy

/-- An `HTTPException`: status code and detail message. -/
structure HTTPError where
  status_code : Nat
  detail : String
deriving DecidableEq

/-- The `User` pydantic model (`server.py` lines 40-50). -/
structure User where
  id : String
  username : String
  email : String
  full_name : String
  role : String
  department : String
  state : Option String := none
  district : Option String := none
  created_at : Nat
  is_active : Bool := true
deriving DecidableEq

/-- The `UserCreate` request model (lines 52-60); `password` is the plaintext. -/
structure UserCreate where
  username : String
  email : String
  password : String
  full_name : String
  role : String := "viewer"
  department : String
  state : Option String := none
  district : Option String := none
deriving DecidableEq

/-- The `UserLogin` request model. -/
structure UserLogin where
  username : String
  password : String
deriving DecidableEq

/-- The `Village` pydantic model (lines 71-83). -/
structure Village where
  id : String
  name : String
  state : String
  district : String
  tehsil : String
  village_code : String
  total_area : Rat
  forest_area : Rat
  coordinates : Val
  population : Nat
  tribal_population : Nat
  created_at : Nat

/-- The `ForestClaim` pydantic model (lines 85-101). -/
structure ForestClaim where
  id : String
  claim_type : String
  claim_number : String
  village_id : String
  village_name : String
  beneficiary_name : String
  beneficiary_father_name : String
  area_claimed : Rat
  coordinates : Val
  status : String
  submitted_date : Nat
  last_updated : Nat
  assigned_officer : Option String := none
  ai_recommendation : Option Val := none
  ocr_documents : List Val := []
  linked_schemes : List String := []

/-- The `ClaimCreate` request model (lines 103-110). -/
structure ClaimCreate where
  claim_type : String
  village_id : String
  village_name : String
  beneficiary_name : String
  beneficiary_father_name : String
  area_claimed : Rat
  coordinates : Val

/-- The `DashboardStats` response model (lines 112-120). -/
structure DashboardStats where
  total_villages : Nat
  total_claims : Nat
  pending_claims : Nat
  approved_claims : Nat
  disputed_claims : Nat
  ocr_accuracy : Rat
  schemes_integrated : Nat
  total_budget_linked : Rat

/-- The `CaseUpdate` request model (lines 122-125). -/
structure CaseUpdate where
  status : String
  notes : Option String := none
  ai_recommendation : Option Val := none

/-- A document of the `users` collection.  Documents written by
`init-sample-data` carry a `hashed_password` key; `register_user` inserts
`User(**user_dict).dict()`, which has none (pydantic drops the extra key), so
the key is optional.  Mongo adds an `_id` on insert, surfaced on every read. -/
structure StoredUser where
  user : User
  hashed_password : Option String := none
  mongoId : String := "oid"

/-- A document of the `forest_claims` collection: the `ForestClaim` fields
plus the `notes` key that `update_claim_status` may `$set` (it is not a
`ForestClaim` model field, so reads through the model drop it). -/
structure StoredClaim where
  claim : ForestClaim
  notes : Option String := none

/-- The Mongo database: the three collections used by the routes, in
insertion (natural) order. -/
structure DB where
  users : List StoredUser := []
  villages : List Village := []
  forest_claims : List StoredClaim := []

/-! ## Credential primitives

The bcrypt context and the JWT encoder are external collaborators (spec §1
treats them as library calls with contracts).  They are modelled by their
contracts: hashing is injective-by-construction and verification succeeds
exactly on the matching plaintext; a signed token carries its payload and an
unforgeable-signature flag. -/

/-- Modelled contract of `pwd_context.hash`. -/
def get_password_hash (password : String) : String := "bcrypt$" ++ password

/-- Modelled contract of `pwd_context.verify`. -/
def verify_password (plain hashed : String) : Bool :=
  ("bcrypt$" ++ plain) == hashed

/-- A decoded JWT payload: optional `sub` claim and absolute expiry. -/
structure TokenPayload where
  sub : Option String := none
  exp : Nat
deriving DecidableEq

/-- A presented bearer token: either carries a payload signed with the
server's secret, or fails signature validation. -/
inductive BearerToken where
  | invalid
  | signed (p : TokenPayload)
deriving DecidableEq

/-- Modelled contract of `jwt.decode(..., SECRET_KEY, algorithms=[ALGORITHM])`:
fails (`PyJWTError`) on a bad signature or a passed expiry, otherwise yields
the payload. -/
def jwtDecode (t : BearerToken) (now : Nat) : Option TokenPayload :=
  match t with
  | .invalid => none
  | .signed p => if p.exp ≤ now then none else some p

/-- `create_access_token` (lines 134-142) with an explicit `expires_delta`,
as called from `login_user`: payload `{"sub": sub, "exp": now + delta}`. -/
def create_access_token (sub : String) (now : Nat) (deltaSeconds : Nat) : BearerToken :=
  .signed { sub := some sub, exp := now + deltaSeconds }

/-- `ACCESS_TOKEN_EXPIRE_MINUTES = 30`, in seconds. -/
def accessTokenExpireSeconds : Nat := 30 * 60

/-! ## Serialization to raw documents -/

/-- Encoding of an `Optional[str]` field in a document. -/
def optStrVal : Option String → Val
  | none => .null
  | some s => .str s

/-- `user.dict()` / the JSON body produced by `response_model=User`: exactly
the declared model fields, in declaration order.  There is no
`hashed_password` field on the model. -/
def User.dictDoc (u : User) : List (String × Val) :=
  [("id", .str u.id), ("username", .str u.username), ("email", .str u.email),
   ("full_name", .str u.full_name), ("role", .str u.role),
   ("department", .str u.department), ("state", optStrVal u.state),
   ("district", optStrVal u.district), ("created_at", .num u.created_at),
   ("is_active", .bool u.is_active)]

/-- The raw `users` document as returned by `find_one`: the Mongo `_id`,
the model fields, and the `hashed_password` key when present. -/
def StoredUser.rawDoc (su : StoredUser) : List (String × Val) :=
  ("_id", .str su.mongoId) :: su.user.dictDoc ++
    (match su.hashed_password with
     | none => []
     | some h => [("hashed_password", .str h)])

/-- The `Token` response of `login_user` (lines 66-69, 198-202). -/
structure Token where
  access_token : BearerToken
  token_type : String
  user : List (String × Val)

/-! ## Authentication dependency -/

/-- The `credentials_exception` of `get_current_user`. -/
def credentialsException : HTTPError :=
  { status_code := 401, detail := "Could not validate credentials" }

/-- `db.users.find_one({"username": username})`: first document in natural
order whose `username` matches. -/
def findUser (db : DB) (username : String) : Option StoredUser :=
  db.users.find? (fun su => su.user.username == username)

/-- `get_current_user` (lines 144-161): decode the token (401 on bad
signature / expiry), 401 when `sub` is missing, look the subject up in the
`users` collection (401 when absent), and return `User(**user)` — the model
fields of the stored document. -/
def get_current_user (db : DB) (tok : BearerToken) (now : Nat) : Except HTTPError User :=
  match jwtDecode tok now with
  | none => .error credentialsException
  | some payload =>
    match payload.sub with
    | none => .error credentialsException
    | some username =>
      match findUser db username with
      | none => .error credentialsException
      | some su => .ok su.user

/-! ## Authentication endpoints -/

/-- The `User(**user_dict)` record built by registration: the request fields
plus the server-generated `id` and `created_at`; the extra `hashed_password`
key of `user_dict` is silently dropped by pydantic. -/
def registeredUser (ud : UserCreate) (freshId : String) (now : Nat) : User :=
  { id := freshId, username := ud.username, email := ud.email,
    full_name := ud.full_name, role := ud.role, department := ud.department,
    state := ud.state, district := ud.district, created_at := now,
    is_active := true }

/-- `register_user` (lines 164-179).  `freshId`/`now` are the
`default_factory` results for `User.id` / `User.created_at`, `newMongoId` the
`_id` Mongo assigns on insert.  The handler hashes the password into
`user_dict`, but `User(**user_dict)` silently drops the extra
`hashed_password` key and `insert_one(user.dict())` stores only the model
fields — so the stored record carries no hash.  Returns the created `User`. -/
def register_user (db : DB) (ud : UserCreate) (freshId : String) (now : Nat)
    (newMongoId : String) : Except HTTPError (DB × User) :=
  if db.users.any (fun su => su.user.username == ud.username || su.user.email == ud.email) then
    .error { status_code := 400, detail := "Username or email already registered" }
  else
    let user : User := registeredUser ud freshId now
    .ok ({ db with users := db.users ++ [{ user := user, hashed_password := none,
                                           mongoId := newMongoId }] }, user)

/-- `login_user` (lines 181-202).  A user document written by
`register_user` has no `hashed_password` key, so `user["hashed_password"]`
raises `KeyError` — an unhandled exception surfaced as HTTP 500. -/
def login_user (db : DB) (ld : UserLogin) (now : Nat) : Except HTTPError Token :=
  match findUser db ld.username with
  | none => .error { status_code := 401, detail := "Incorrect username or password" }
  | some su =>
    match su.hashed_password with
    | none => .error { status_code := 500, detail := "Internal Server Error" }
    | some h =>
      if !verify_password ld.password h then
        .error { status_code := 401, detail := "Incorrect username or password" }
      else if !su.user.is_active then
        .error { status_code := 400, detail := "Inactive user" }
      else
        .ok { access_token := create_access_token su.user.username now accessTokenExpireSeconds,
              token_type := "bearer",
              user := su.rawDoc.filter
                (fun kv => !(kv.1 == "_id" || kv.1 == "hashed_password")) }

/-- `GET /auth/me` (lines 204-206): returns the authenticated caller. -/
def get_current_user_info (db : DB) (tok : BearerToken) (now : Nat) : Except HTTPError User :=
  get_current_user db tok now

/-! ## Dashboard -/

/-- `get_dashboard_stats` (lines 209-227): live counts from the collections
plus three hardcoded figures. -/
def get_dashboard_stats (db : DB) (_current_user : User) : DashboardStats :=
  { total_villages := db.villages.length
    total_claims := db.forest_claims.length
    pending_claims := (db.forest_claims.filter (fun c => c.claim.status == "pending")).length
    approved_claims := (db.forest_claims.filter (fun c => c.claim.status == "approved")).length
    disputed_claims := (db.forest_claims.filter (fun c => c.claim.status == "disputed")).length
    ocr_accuracy := 87.5
    schemes_integrated := 4
    total_budget_linked := 125000000 }

/-! ## Village endpoints -/

/-- The query built by `get_villages` (lines 236-240): each filter key is
added only when the parameter is truthy, and matches by equality. -/
def villageQuery (state district : Option String) (v : Village) : Bool :=
  (match state with
   | some s => if s.isEmpty then true else v.state == s
   | none => true) &&
  (match district with
   | some d => if d.isEmpty then true else v.district == d
   | none => true)

/-- `get_villages` (lines 230-243): `find(query).to_list(1000)` — at most
the first 1000 matching documents, in natural order. -/
def get_villages (db : DB) (state district : Option String) (_current_user : User) :
    List Village :=
  (db.villages.filter (villageQuery state district)).take 1000

/-- `create_village` (lines 245-252): requires admin/officer, then stores and
returns `Village(**village_data.dict())` — a verbatim copy of the parsed
request body, `id` and `created_at` included (pydantic `default_factory`
only fires for fields absent from the constructor arguments, and
`village_data.dict()` supplies them all). -/
def create_village (db : DB) (village_data : Village) (current_user : User) :
    Except HTTPError (DB × Village) :=
  if !(current_user.role == "admin" || current_user.role == "officer") then
    .error { status_code := 403, detail := "Not authorized to create villages" }
  else
    let village := village_data
    .ok ({ db with villages := db.villages ++ [village] }, village)

/-! ## Claim number generation

`claim_number = f"FRA-{datetime.now().strftime('%Y%m%d')}-{str(uuid.uuid4())[:8].upper()}"`
(line 284).  `datetime.now()` is the naive server-local clock.  The first 8
characters of a canonical UUID string are the top 8 hex nibbles of the
128-bit value, here uppercased. -/

/-- A calendar date as read from a clock. -/
structure Date where
  year : Nat
  month : Nat
  day : Nat
deriving DecidableEq

/-- The decimal digit characters. -/
def digitChar (n : Nat) : Char :=
  match n with
  | 0 => '0' | 1 => '1' | 2 => '2' | 3 => '3' | 4 => '4'
  | 5 => '5' | 6 => '6' | 7 => '7' | 8 => '8' | _ => '9'

/-- Fuel-driven decimal rendering (most significant digit first); the fuel
`n+1` always suffices since a number has at most `n+1` digits. -/
def decCharsAux : Nat → Nat → List Char → List Char
  | 0, _, acc => acc
  | fuel + 1, n, acc =>
    if n < 10 then digitChar n :: acc
    else decCharsAux fuel (n / 10) (digitChar (n % 10) :: acc)

/-- Python `str(n)` for a natural number. -/
def decChars (n : Nat) : List Char := decCharsAux (n + 1) n []

/-- Zero-pad on the left to the given width (`strftime` field padding). -/
def padLeft (width : Nat) (cs : List Char) : List Char :=
  List.replicate (width - cs.length) '0' ++ cs

/-- `strftime('%Y%m%d')`. -/
def dateChars (d : Date) : List Char :=
  padLeft 4 (decChars d.year) ++ padLeft 2 (decChars d.month) ++ padLeft 2 (decChars d.day)

/-- The uppercase hexadecimal digit characters. -/
def hexDigitUpper (n : Nat) : Char :=
  match n with
  | 0 => '0' | 1 => '1' | 2 => '2' | 3 => '3' | 4 => '4'
  | 5 => '5' | 6 => '6' | 7 => '7' | 8 => '8' | 9 => '9'
  | 10 => 'A' | 11 => 'B' | 12 => 'C' | 13 => 'D' | 14 => 'E' | _ => 'F'

/-- `str(uuid.uuid4())[:8].upper()`: the top 8 hex nibbles of the 128-bit
UUID value, most significant first, uppercased. -/
def uuidHex8 (uuid : Nat) : List Char :=
  [hexDigitUpper (uuid >>> 124 % 16), hexDigitUpper (uuid >>> 120 % 16),
   hexDigitUpper (uuid >>> 116 % 16), hexDigitUpper (uuid >>> 112 % 16),
   hexDigitUpper (uuid >>> 108 % 16), hexDigitUpper (uuid >>> 104 % 16),
   hexDigitUpper (uuid >>> 100 % 16), hexDigitUpper (uuid >>> 96 % 16)]

/-- The characters of the generated claim number. -/
def claimNumberChars (d : Date) (uuid : Nat) : List Char :=
  'F' :: 'R' :: 'A' :: '-' :: (dateChars d ++ '-' :: uuidHex8 uuid)

/-- The generated claim number string (line 284). -/
def claimNumberStr (d : Date) (uuid : Nat) : String :=
  String.mk (claimNumberChars d uuid)

/-- An ASCII decimal digit (`\d` of the spec's pattern). -/
def isAsciiDigit (c : Char) : Bool := '0' ≤ c && c ≤ '9'

/-- An uppercase hexadecimal digit (`[0-9A-F]` of the spec's pattern). -/
def isUpperHexDigit (c : Char) : Bool := isAsciiDigit c || ('A' ≤ c && c ≤ 'F')

/-- Modelled from the spec's words: the anchored pattern
`FRA-\d{8}-[0-9A-F]{8}` of §8 property 1, as a decidable predicate on
strings (literal prefix `FRA-`, eight decimal digits, a dash, eight
uppercase hex digits, total length 21). -/
def claimNumberFormatOK (s : String) : Bool :=
  (s.toList.length == 21) &&
  (s.toList.take 4 == ['F', 'R', 'A', '-']) &&
  ((s.toList.drop 4).take 8).all isAsciiDigit &&
  ((s.toList.drop 12).take 1 == ['-']) &&
  (s.toList.drop 13).all isUpperHexDigit

/-! ## Forest claim endpoints -/

/-- `db.villages.find({"district": d}).to_list(1000)` then `[v["id"] ...]`
(lines 271-272): identifiers of at most the first 1000 villages of the
district, in natural order. -/
def districtVillageIds (db : DB) (district : String) : List String :=
  ((db.villages.filter (fun v => v.district == district)).take 1000).map (fun v => v.id)

/-- The `status` part of the query of `get_forest_claims` (lines 262-263). -/
def claimStatusMatch (status : Option String) (c : StoredClaim) : Bool :=
  match status with
  | some s => if s.isEmpty then true else c.claim.status == s
  | none => true

/-- The `village_id` part of the query as written at lines 264-265 (before
any jurisdiction overwrite). -/
def claimVillageIdMatch (village_id : Option String) (c : StoredClaim) : Bool :=
  match village_id with
  | some v => if v.isEmpty then true else c.claim.village_id == v
  | none => true

/-- The `village_id` key of the query as it stands after lines 264-273: the
exact-match entry written for a truthy `village_id` parameter is *overwritten*
by the jurisdiction `$in` entry when the caller is not an admin and has a
truthy district. -/
def claimVillageMatch (db : DB) (village_id : Option String) (u : User)
    (c : StoredClaim) : Bool :=
  if u.role != "admin" && truthyOS u.district then
    (districtVillageIds db (u.district.getD "")).contains c.claim.village_id
  else
    claimVillageIdMatch village_id c

/-- A stable sort by `submitted_date` descending, modelling
`.sort("submitted_date", -1)` (line 275); insertion sort keeps the natural
order of ties. -/
def insertByDateDesc (c : StoredClaim) : List StoredClaim → List StoredClaim
  | [] => [c]
  | x :: xs =>
    if x.claim.submitted_date < c.claim.submitted_date then c :: x :: xs
    else x :: insertByDateDesc c xs

/-- Sort a claim list by `submitted_date` descending (stable). -/
def sortByDateDesc : List StoredClaim → List StoredClaim
  | [] => []
  | x :: xs => insertByDateDesc x (sortByDateDesc xs)

/-- `get_forest_claims` (lines 255-276): filter, jurisdiction scoping for
non-admin callers with a district, sort by `submitted_date` descending,
truncate to 1000, decode through the `ForestClaim` model (dropping any extra
`notes` key). -/
def get_forest_claims (db : DB) (status village_id : Option String) (u : User) :
    List ForestClaim :=
  (((sortByDateDesc (db.forest_claims.filter
      (fun c => claimStatusMatch status c && claimVillageMatch db village_id u c))).take
    1000).map (fun c => c.claim))

/-- The `ForestClaim(**claim_dict)` record built at lines 283-289. -/
def newForestClaim (cd : ClaimCreate) (u : User) (nowLocal : Date) (nowUtc numUuid : Nat)
    (freshId : String) : ForestClaim :=
  { id := freshId, claim_type := cd.claim_type,
    claim_number := claimNumberStr nowLocal numUuid,
    village_id := cd.village_id, village_name := cd.village_name,
    beneficiary_name := cd.beneficiary_name,
    beneficiary_father_name := cd.beneficiary_father_name,
    area_claimed := cd.area_claimed, coordinates := cd.coordinates,
    status := "pending", submitted_date := nowUtc, last_updated := nowUtc,
    assigned_officer := some u.id, ai_recommendation := none,
    ocr_documents := [], linked_schemes := [] }

/-- `create_forest_claim` (lines 278-291).  `nowLocal` is the
`datetime.now()` (server-local) date used for the claim number; `nowUtc` the
`datetime.now(timezone.utc)` reading used for `submitted_date` (and for the
`last_updated` default, modelled as the same instant); `numUuid` the fresh
UUID consumed by the claim number, `freshId` the fresh UUID string consumed
by the `ForestClaim.id` default. -/
def create_forest_claim (db : DB) (cd : ClaimCreate) (u : User) (nowLocal : Date)
    (nowUtc : Nat) (numUuid : Nat) (freshId : String) :
    Except HTTPError (DB × ForestClaim) :=
  if !(u.role == "admin" || u.role == "officer" || u.role == "verifier") then
    .error { status_code := 403, detail := "Not authorized to create claims" }
  else
    let claim : ForestClaim := newForestClaim cd u nowLocal nowUtc numUuid freshId
    .ok ({ db with forest_claims := db.forest_claims ++ [{ claim := claim, notes := none }] },
         claim)

/-- `get_forest_claim` (lines 293-299): first document by `id`, 404 when
absent. -/
def get_forest_claim (db : DB) (claim_id : String) : Except HTTPError ForestClaim :=
  match db.forest_claims.find? (fun c => c.claim.id == claim_id) with
  | none => .error { status_code := 404, detail := "Claim not found" }
  | some c => .ok c.claim

/-- `update_one`'s effect: rewrite the first document matching `p`. -/
def updateFirst (p : α → Bool) (f : α → α) : List α → List α
  | [] => []
  | x :: xs => if p x then f x :: xs else x :: updateFirst p f xs

/-- The `$set` document of `update_claim_status` (lines 314-322) applied to a
stored claim: `status` and `last_updated` always, `notes` /
`ai_recommendation` only when truthy in the request. -/
def applyCaseUpdate (upd : CaseUpdate) (now : Nat) (sc : StoredClaim) : StoredClaim :=
  { claim :=
      { sc.claim with
        status := upd.status
        last_updated := now
        ai_recommendation :=
          if truthyOV upd.ai_recommendation then upd.ai_recommendation
          else sc.claim.ai_recommendation }
    notes := if truthyOS upd.notes then upd.notes else sc.notes }

/-- `update_claim_status` (lines 301-326): admin/officer only, 404 when no
claim has the identifier, otherwise `$set` on the first matching document. -/
def update_claim_status (db : DB) (claim_id : String) (upd : CaseUpdate) (now : Nat)
    (u : User) : Except HTTPError (DB × String) :=
  if !(u.role == "admin" || u.role == "officer") then
    .error { status_code := 403, detail := "Not authorized to update claims" }
  else
    match db.forest_claims.find? (fun c => c.claim.id == claim_id) with
    | none => .error { status_code := 404, detail := "Claim not found" }
    | some _ =>
      .ok ({ db with forest_claims :=
               (updateFirst (fun c => c.claim.id == claim_id) (applyCaseUpdate upd now)
                 db.forest_claims) },
           "Claim status updated successfully")

/-! ## Token-level endpoint wrappers

Each protected route runs `get_current_user` first (the `Depends(security)` /
`Depends(get_current_user)` chain); its 401 short-circuits the handler. -/

/-- `POST /villages` including authentication. -/
def create_village_ep (db : DB) (tok : BearerToken) (now : Nat) (body : Village) :
    Except HTTPError (DB × Village) :=
  match get_current_user db tok now with
  | .error e => .error e
  | .ok u => create_village db body u

/-- `POST /claims` including authentication. -/
def create_forest_claim_ep (db : DB) (tok : BearerToken) (now : Nat) (body : ClaimCreate)
    (nowLocal : Date) (nowUtc : Nat) (numUuid : Nat) (freshId : String) :
    Except HTTPError (DB × ForestClaim) :=
  match get_current_user db tok now with
  | .error e => .error e
  | .ok u => create_forest_claim db body u nowLocal nowUtc numUuid freshId

/-- `PUT /claims/{id}/status` including authentication. -/
def update_claim_status_ep (db : DB) (tok : BearerToken) (now : Nat) (claim_id : String)
    (upd : CaseUpdate) (nowUtc : Nat) : Except HTTPError (DB × String) :=
  match get_current_user db tok now with
  | .error e => .error e
  | .ok u => update_claim_status db claim_id upd nowUtc u

/-! ## Concrete records used by witnesses and counterexamples -/

/-- A sample GeoJSON point payload. -/
def sampleCoords : Val :=
  .dict [("type", .str "Point"), ("coordinates", .arr [.rat 85, .rat 23])]

/-- A sample admin caller. -/
def adminUser : User :=
  { id := "u-admin", username := "admin", email := "admin@x", full_name := "Admin",
    role := "admin", department := "Forest", created_at := 0 }

/-- A sample officer caller. -/
def officerUser : User :=
  { id := "u-off", username := "officer1", email := "off@x", full_name := "Officer",
    role := "officer", department := "Forest", created_at := 0 }

/-- A sample viewer caller. -/
def viewerUser : User :=
  { id := "u-view", username := "viewer1", email := "view@x", full_name := "Viewer",
    role := "viewer", department := "Forest", created_at := 0 }

/-- A sample verifier caller whose jurisdiction is the district `Ranchi`. -/
def verifierRanchi : User :=
  { id := "u-ver", username := "verifier1", email := "ver@x", full_name := "Verifier",
    role := "verifier", department := "Forest", district := some "Ranchi",
    created_at := 0 }

/-- A village of the district `Ranchi` with identifier `v1`. -/
def villageR1 : Village :=
  { id := "v1", name := "Jharkhand Village", state := "Jharkhand", district := "Ranchi",
    tehsil := "Ranchi", village_code := "JH001", total_area := 2500,
    forest_area := 1800, coordinates := sampleCoords, population := 1200,
    tribal_population := 800, created_at := 10 }

/-- A second village of the district `Ranchi`, identifier `v2`. -/
def villageR2 : Village :=
  { id := "v2", name := "Ranchi Village 2", state := "Jharkhand", district := "Ranchi",
    tehsil := "Ranchi", village_code := "JH002", total_area := 3200,
    forest_area := 2400, coordinates := sampleCoords, population := 950,
    tribal_population := 700, created_at := 11 }

/-- A stored claim on village `v1`, submitted at time 100. -/
def scR1 : StoredClaim :=
  { claim := { id := "c1", claim_type := "IFR", claim_number := "FRA-20240901-AAAAAAAA",
               village_id := "v1", village_name := "Jharkhand Village",
               beneficiary_name := "B1", beneficiary_father_name := "F1",
               area_claimed := 5/2, coordinates := sampleCoords, status := "pending",
               submitted_date := 100, last_updated := 100 } }

/-- A stored claim on village `v2`, submitted at time 50. -/
def scR2 : StoredClaim :=
  { claim := { id := "c2", claim_type := "CFR", claim_number := "FRA-20240901-BBBBBBBB",
               village_id := "v2", village_name := "Ranchi Village 2",
               beneficiary_name := "B2", beneficiary_father_name := "F2",
               area_claimed := 7/2, coordinates := sampleCoords, status := "pending",
               submitted_date := 50, last_updated := 50 } }

/-- The database of the jurisdiction counterexample: two Ranchi villages and
one claim on each. -/
def dbC1 : DB := { villages := [villageR1, villageR2], forest_claims := [scR1, scR2] }

/-- A village body carrying a client-chosen identifier and timestamp. -/
def c2Body : Village :=
  { id := "client-chosen-id", name := "N", state := "S", district := "D", tehsil := "T",
    village_code := "VC", total_area := 1, forest_area := 1, coordinates := .null,
    population := 1, tribal_population := 1, created_at := 12345 }

/-- The user store used by authentication witnesses: the admin, a viewer and
a verifier, all with stored bcrypt hashes (as seeded data would be). -/
def dbAuth : DB :=
  { users := [{ user := adminUser, hashed_password := some (get_password_hash "admin123"),
                mongoId := "m-adm" },
              { user := viewerUser, hashed_password := some (get_password_hash "pw-v"),
                mongoId := "m-view" },
              { user := verifierRanchi, hashed_password := some (get_password_hash "pw-ver"),
                mongoId := "m-ver" }],
    villages := [villageR1, villageR2], forest_claims := [scR1, scR2] }

/-- A valid unexpired token for the given username (as issued by login at
time 0, checked at time 5). -/
def tokFor (uname : String) : BearerToken := .signed { sub := some uname, exp := 10 }

/-- A claim-creation request body. -/
def ccBody : ClaimCreate :=
  { claim_type := "IFR", village_id := "v1", village_name := "Jharkhand Village",
    beneficiary_name := "B9", beneficiary_father_name := "F9", area_claimed := 2,
    coordinates := sampleCoords }

/-- A database holding 1001 identical villages. -/
def dbBig : DB := { villages := List.replicate 1001 villageR1 }

/-- A Ranchi village that sits beyond the first 1000 of its district. -/
def villageB : Village := { villageR1 with id := "vb", village_code := "JH003" }

/-- A claim on the beyond-the-cap village `vb`. -/
def scB : StoredClaim := { claim := { scR1.claim with id := "cb", village_id := "vb" } }

/-- 1000 Ranchi villages, then `villageB`, and one claim on `villageB`. -/
def dbBeyond : DB :=
  { villages := List.replicate 1000 villageR1 ++ [villageB], forest_claims := [scB] }

/-- A registration request. -/
def regReq : UserCreate :=
  { username := "alice", email := "alice@x", password := "pw", full_name := "Alice",
    department := "Forest" }

/-- The user record produced by registering `regReq` with fresh id `uid-1` at
time 0. -/
def aliceUser : User :=
  { id := "uid-1", username := "alice", email := "alice@x", full_name := "Alice",
    role := "viewer", department := "Forest", created_at := 0 }

/-! ## General-purpose helper lemmas -/

theorem updateFirst_decomp {α : Type} (p : α → Bool) (f : α → α) (pre post : List α)
    (x : α) (hpre : ∀ y ∈ pre, p y = false) (hx : p x = true) :
    updateFirst p f (pre ++ x :: post) = pre ++ f x :: post := by
  induction pre with
  | nil => simp [updateFirst, hx]
  | cons a l ih =>
    have ha : p a = false := hpre a (List.mem_cons_self a l)
    simp only [List.cons_append, updateFirst, ha]
    simp only [Bool.false_eq_true, if_false]
    exact congrArg (a :: ·) (ih (fun y hy => hpre y (List.mem_cons_of_mem a hy)))

theorem find?_decomp {α : Type} (p : α → Bool) (pre post : List α) (x : α)
    (hpre : ∀ y ∈ pre, p y = false) (hx : p x = true) :
    List.find? p (pre ++ x :: post) = some x := by
  induction pre with
  | nil => simp [List.find?, hx]
  | cons a l ih =>
    have ha : p a = false := hpre a (List.mem_cons_self a l)
    simp only [List.cons_append, List.find?, ha]
    exact ih (fun y hy => hpre y (List.mem_cons_of_mem a hy))

theorem find?_some_pred {α : Type} (p : α → Bool) (l : List α) (a : α)
    (h : List.find? p l = some a) : p a = true := by
  induction l with
  | nil => simp [List.find?] at h
  | cons x xs ih =>
    by_cases hx : p x = true
    · rw [List.find?_cons_of_pos _ hx] at h
      cases h
      exact hx
    · have hx' : p x = false := by revert hx; cases p x <;> simp
      rw [List.find?_cons_of_neg _ (by simp [hx'])] at h
      exact ih h

theorem find?_updateFirst {α : Type} (p : α → Bool) (f : α → α) (l : List α) (x : α)
    (hfind : List.find? p l = some x) (hfx : p (f x) = true) :
    List.find? p (updateFirst p f l) = some (f x) := by
  induction l with
  | nil => simp [List.find?] at hfind
  | cons a l ih =>
    by_cases ha : p a = true
    · rw [List.find?_cons_of_pos _ ha] at hfind
      cases hfind
      simp [updateFirst, ha, List.find?_cons_of_pos _ hfx]
    · have ha' : p a = false := by revert ha; cases p a <;> simp
      rw [List.find?_cons_of_neg _ (by simp [ha'])] at hfind
      simp [updateFirst, ha', List.find?_cons_of_neg, ih hfind]

theorem mem_insertByDateDesc (c x : StoredClaim) (l : List StoredClaim) :
    x ∈ insertByDateDesc c l ↔ x = c ∨ x ∈ l := by
  induction l with
  | nil => simp [insertByDateDesc]
  | cons a l ih =>
    simp only [insertByDateDesc]
    split
    · exact List.mem_cons
    · simp only [List.mem_cons, ih]
      tauto

theorem mem_sortByDateDesc (x : StoredClaim) (l : List StoredClaim) :
    x ∈ sortByDateDesc l ↔ x ∈ l := by
  induction l with
  | nil => simp [sortByDateDesc]
  | cons a l ih => simp [sortByDateDesc, mem_insertByDateDesc, ih]

theorem length_insertByDateDesc (c : StoredClaim) (l : List StoredClaim) :
    (insertByDateDesc c l).length = l.length + 1 := by
  induction l with
  | nil => simp [insertByDateDesc]
  | cons a l ih =>
    simp only [insertByDateDesc]
    split
    · simp
    · simp [ih]

theorem length_sortByDateDesc (l : List StoredClaim) :
    (sortByDateDesc l).length = l.length := by
  induction l with
  | nil => simp [sortByDateDesc]
  | cons a l ih => simp [sortByDateDesc, length_insertByDateDesc, ih]

theorem contains_iff_mem_str (l : List String) (s : String) :
    l.contains s = true ↔ s ∈ l := by
  simp

theorem contains_replicate_ne (a b : String) (n : Nat) (h : (b == a) = false) :
    (List.replicate n a).contains b = false := by
  induction n with
  | zero => rfl
  | succ n ih =>
    simp only [List.replicate_succ, List.contains_cons, h, ih, Bool.or_self]

/-! ## C7 — dashboard statistics -/

/-- C7: for every dashboard-stats call, `total_villages` is the count of all
stored villages, `total_claims` the count of all stored claims, and
`pending_claims`/`approved_claims`/`disputed_claims` count the claims whose
status is `pending`/`approved`/`disputed`; `ocr_accuracy`,
`schemes_integrated` and `total_budget_linked` are the hardcoded constants
87.5, 4 and 125000000, identical across all database states and callers,
hence not derived from stored data. -/
theorem C7_dashboard_stats (db : DB) (u : User) :
    (get_dashboard_stats db u).total_villages = db.villages.length ∧
    (get_dashboard_stats db u).total_claims = db.forest_claims.length ∧
    (get_dashboard_stats db u).pending_claims
      = (db.forest_claims.filter (fun c => c.claim.status == "pending")).length ∧
    (get_dashboard_stats db u).approved_claims
      = (db.forest_claims.filter (fun c => c.claim.status == "approved")).length ∧
    (get_dashboard_stats db u).disputed_claims
      = (db.forest_claims.filter (fun c => c.claim.status == "disputed")).length ∧
    (get_dashboard_stats db u).ocr_accuracy = 87.5 ∧
    (get_dashboard_stats db u).schemes_integrated = 4 ∧
    (get_dashboard_stats db u).total_budget_linked = 125000000 ∧
    (∀ db' u', (get_dashboard_stats db' u').ocr_accuracy
        = (get_dashboard_stats db u).ocr_accuracy ∧
      (get_dashboard_stats db' u').schemes_integrated
        = (get_dashboard_stats db u).schemes_integrated ∧
      (get_dashboard_stats db' u').total_budget_linked
        = (get_dashboard_stats db u).total_budget_linked) := by
  refine ⟨rfl, rfl, rfl, rfl, rfl, rfl, rfl, rfl, fun db' u' => ⟨rfl, rfl, rfl⟩⟩

/-! ## C2 — POST /villages does not re-derive id / created_at -/

/-- C2 counterexample: a village body carrying the client-chosen identifier
`client-chosen-id` and timestamp 12345 is stored and returned verbatim —
`Village(**village_data.dict())` copies every field of the parsed body, so the
identifier and creation timestamp are taken from the request, not newly
generated by the server at call time as the claim states. -/
theorem C2_counterexample :
    create_village {} c2Body adminUser = .ok ({ villages := [c2Body] }, c2Body) ∧
    c2Body.id = "client-chosen-id" ∧ c2Body.created_at = 12345 := by
  exact ⟨rfl, rfl, rfl⟩

/-- C2 (amended): for every successful POST /villages request the stored and
returned village is the parsed request body verbatim — in particular `id` and
`created_at` are preserved from the body whenever the request supplies them
(pydantic generates them at parse time only when they are absent), and the
handler performs no re-derivation. -/
theorem C2_create_village_preserves_body (db : DB) (body : Village) (u : User)
    (h : u.role = "admin" ∨ u.role = "officer") :
    create_village db body u
      = .ok ({ db with villages := db.villages ++ [body] }, body) := by
  rcases h with h | h <;> simp [create_village, h]

/-- C2 witness: the amended theorem at a concrete admin call. -/
theorem C2_witness :
    create_village {} c2Body adminUser
      = .ok ({ ({} : DB) with villages := [] ++ [c2Body] }, c2Body) :=
  C2_create_village_preserves_body {} c2Body adminUser (Or.inl rfl)

/-! ## C10 — token validation -/

/-- C10: token validation fails with the 401 `credentials_exception` when the
signature is invalid, when the expiry has passed, when the `sub` claim is
missing, and also when the token is valid and unexpired but no user with the
subject username exists in the store; on success the caller identity is the
stored user record for that username (its `User` model fields). -/
theorem C10_get_current_user :
    (∀ db now, get_current_user db .invalid now = .error credentialsException) ∧
    (∀ db p now, p.exp ≤ now →
       get_current_user db (.signed p) now = .error credentialsException) ∧
    (∀ db e now, now < e →
       get_current_user db (.signed { sub := none, exp := e }) now
         = .error credentialsException) ∧
    (∀ db uname e now, now < e → findUser db uname = none →
       get_current_user db (.signed { sub := some uname, exp := e }) now
         = .error credentialsException) ∧
    (∀ db uname e now su, now < e → findUser db uname = some su →
       get_current_user db (.signed { sub := some uname, exp := e }) now
         = .ok su.user) ∧
    credentialsException.status_code = 401 := by
  refine ⟨fun db now => rfl, ?_, ?_, ?_, ?_, rfl⟩
  · intro db p now h
    simp [get_current_user, jwtDecode, h]
  · intro db e now h
    simp [get_current_user, jwtDecode, Nat.not_le.mpr h]
  · intro db uname e now h hf
    simp [get_current_user, jwtDecode, Nat.not_le.mpr h, hf]
  · intro db uname e now su h hf
    simp [get_current_user, jwtDecode, Nat.not_le.mpr h, hf]


/-- C10 witness: each branch of the theorem at concrete inputs — an invalid
token, an expired token, a token without subject, a valid token whose subject
`ghost` has no user record, and a valid token for `admin`. -/
theorem C10_witness :
    get_current_user dbAuth .invalid 0 = .error credentialsException ∧
    get_current_user dbAuth (.signed { sub := some "admin", exp := 5 }) 5
      = .error credentialsException ∧
    get_current_user dbAuth (.signed { sub := none, exp := 10 }) 5
      = .error credentialsException ∧
    get_current_user dbAuth (.signed { sub := some "ghost", exp := 10 }) 5
      = .error credentialsException ∧
    get_current_user dbAuth (.signed { sub := some "admin", exp := 10 }) 5
      = .ok adminUser := by
  refine ⟨C10_get_current_user.1 dbAuth 0,
          C10_get_current_user.2.1 dbAuth _ 5 (by decide),
          C10_get_current_user.2.2.1 dbAuth 10 5 (by decide),
          C10_get_current_user.2.2.2.1 dbAuth "ghost" 10 5 (by decide) (by rfl),
          C10_get_current_user.2.2.2.2.1 dbAuth "admin" 10 5 _ (by decide) (by rfl)⟩

/-! ## C4 — authentication and role gating of create/update endpoints -/

/-- C4: without a valid token (bad signature or passed expiry) POST /villages
and POST /claims fail with the 401 `credentials_exception`; with a valid
token resolving to a `viewer` both fail 403; an `admin` passes the
authorization check of both; a `verifier` passes the authorization check of
create-claim but is rejected 403 by create-village and by update-claim-status. -/
theorem C4_role_gating :
    (∀ db tok now body bodyC nowLocal nowUtc numUuid freshId,
       jwtDecode tok now = none →
         create_village_ep db tok now body = .error credentialsException ∧
         create_forest_claim_ep db tok now bodyC nowLocal nowUtc numUuid freshId
           = .error credentialsException ∧
         credentialsException.status_code = 401) ∧
    (∀ db tok now u body bodyC nowLocal nowUtc numUuid freshId,
       get_current_user db tok now = .ok u → u.role = "viewer" →
         create_village_ep db tok now body
           = .error { status_code := 403, detail := "Not authorized to create villages" } ∧
         create_forest_claim_ep db tok now bodyC nowLocal nowUtc numUuid freshId
           = .error { status_code := 403, detail := "Not authorized to create claims" }) ∧
    (∀ db tok now u body bodyC nowLocal nowUtc numUuid freshId,
       get_current_user db tok now = .ok u → u.role = "admin" →
         (∃ r, create_village_ep db tok now body = .ok r) ∧
         (∃ r, create_forest_claim_ep db tok now bodyC nowLocal nowUtc numUuid freshId
            = .ok r)) ∧
    (∀ db tok now u body bodyC nowLocal nowUtc numUuid freshId claim_id upd nowUtc2,
       get_current_user db tok now = .ok u → u.role = "verifier" →
         (∃ r, create_forest_claim_ep db tok now bodyC nowLocal nowUtc numUuid freshId
            = .ok r) ∧
         create_village_ep db tok now body
           = .error { status_code := 403, detail := "Not authorized to create villages" } ∧
         update_claim_status_ep db tok now claim_id upd nowUtc2
           = .error { status_code := 403, detail := "Not authorized to update claims" }) := by
  refine ⟨?_, ?_, ?_, ?_⟩
  · intro db tok now body bodyC nowLocal nowUtc numUuid freshId h
    refine ⟨?_, ?_, rfl⟩ <;>
      simp [create_village_ep, create_forest_claim_ep, get_current_user, h]
  · intro db tok now u body bodyC nowLocal nowUtc numUuid freshId h hrole
    constructor
    · simp [create_village_ep, h, create_village, hrole]
    · simp [create_forest_claim_ep, h, create_forest_claim, hrole]
  · intro db tok now u body bodyC nowLocal nowUtc numUuid freshId h hrole
    constructor
    · exact ⟨_, by simp [create_village_ep, h, create_village, hrole]; rfl⟩
    · exact ⟨_, by simp [create_forest_claim_ep, h, create_forest_claim, hrole]; rfl⟩
  · intro db tok now u body bodyC nowLocal nowUtc numUuid freshId claim_id upd nowUtc2 h
      hrole
    refine ⟨⟨_, by simp [create_forest_claim_ep, h, create_forest_claim, hrole]; rfl⟩,
      ?_, ?_⟩
    · simp [create_village_ep, h, create_village, hrole]
    · simp [update_claim_status_ep, h, update_claim_status, hrole]



/-- C4 witness: the four branches at concrete inputs over `dbAuth` — an
invalid token, and valid tokens for the viewer, the admin and the verifier. -/
theorem C4_witness :
    (create_village_ep dbAuth .invalid 5 c2Body = .error credentialsException ∧
     create_forest_claim_ep dbAuth .invalid 5 ccBody ⟨2024, 9, 1⟩ 200 0 "cid"
       = .error credentialsException ∧
     credentialsException.status_code = 401) ∧
    (create_village_ep dbAuth (tokFor "viewer1") 5 c2Body
       = .error { status_code := 403, detail := "Not authorized to create villages" } ∧
     create_forest_claim_ep dbAuth (tokFor "viewer1") 5 ccBody ⟨2024, 9, 1⟩ 200 0 "cid"
       = .error { status_code := 403, detail := "Not authorized to create claims" }) ∧
    ((∃ r, create_village_ep dbAuth (tokFor "admin") 5 c2Body = .ok r) ∧
     (∃ r, create_forest_claim_ep dbAuth (tokFor "admin") 5 ccBody ⟨2024, 9, 1⟩ 200 0 "cid"
        = .ok r)) ∧
    ((∃ r, create_forest_claim_ep dbAuth (tokFor "verifier1") 5 ccBody ⟨2024, 9, 1⟩ 200 0
         "cid" = .ok r) ∧
     create_village_ep dbAuth (tokFor "verifier1") 5 c2Body
       = .error { status_code := 403, detail := "Not authorized to create villages" } ∧
     update_claim_status_ep dbAuth (tokFor "verifier1") 5 "c1" { status := "approved" } 300
       = .error { status_code := 403, detail := "Not authorized to update claims" }) := by
  refine ⟨C4_role_gating.1 dbAuth .invalid 5 c2Body ccBody ⟨2024, 9, 1⟩ 200 0 "cid" rfl,
          C4_role_gating.2.1 dbAuth (tokFor "viewer1") 5 viewerUser c2Body ccBody
            ⟨2024, 9, 1⟩ 200 0 "cid" (by rfl) rfl,
          C4_role_gating.2.2.1 dbAuth (tokFor "admin") 5 adminUser c2Body ccBody
            ⟨2024, 9, 1⟩ 200 0 "cid" (by rfl) rfl,
          C4_role_gating.2.2.2 dbAuth (tokFor "verifier1") 5 verifierRanchi c2Body ccBody
            ⟨2024, 9, 1⟩ 200 0 "cid" "c1" { status := "approved" } 300 (by rfl) rfl⟩

/-! ## C9 — every list operation is capped at 1000 records -/





/-- C9: GET /villages, GET /claims and the district-village resolution inside
jurisdiction scoping each return at most the first 1000 matching records
(the villages result is a prefix of the full match list); with 1001 matching
villages the result is silently truncated to 1000; and jurisdiction scoping
can silently omit an in-district claim whose village lies beyond the first
1000 district villages — `dbBeyond` holds the Ranchi village `vb` in position
1001 and a claim on it, yet the Ranchi-scoped verifier lists no claims. -/
theorem C9_result_caps :
    (∀ db s d u, (get_villages db s d u).length ≤ 1000 ∧
       ∃ rest, get_villages db s d u ++ rest = db.villages.filter (villageQuery s d)) ∧
    (∀ db s v u, (get_forest_claims db s v u).length ≤ 1000) ∧
    (∀ db d, (districtVillageIds db d).length ≤ 1000) ∧
    (dbBig.villages.length = 1001 ∧
     (get_villages dbBig none none adminUser).length = 1000) ∧
    (scB.claim.village_id = villageB.id ∧ villageB ∈ dbBeyond.villages ∧
     villageB.district = "Ranchi" ∧ verifierRanchi.district = some "Ranchi" ∧
     verifierRanchi.role ≠ "admin" ∧
     get_forest_claims dbBeyond none none verifierRanchi = []) := by
  refine ⟨?_, ?_, ?_, ⟨?_, ?_⟩, ?_⟩
  · intro db s d u
    exact ⟨List.length_take_le _ _,
           ⟨(db.villages.filter (villageQuery s d)).drop 1000, List.take_append_drop _ _⟩⟩
  · intro db s v u
    simpa [get_forest_claims] using List.length_take_le 1000 _
  · intro db d
    simpa [districtVillageIds] using List.length_take_le 1000 _
  · show (List.replicate 1001 villageR1).length = 1001
    rw [List.length_replicate]
  · show (((List.replicate 1001 villageR1).filter (villageQuery none none)).take
        1000).length = 1000
    rw [List.filter_replicate, if_pos (show villageQuery none none villageR1 = true
        from rfl), List.take_replicate, List.length_replicate]
    decide
  · have hd : districtVillageIds dbBeyond "Ranchi" = List.replicate 1000 "v1" := by
      show ((((List.replicate 1000 villageR1 ++ [villageB]).filter
          (fun v => v.district == "Ranchi")).take 1000).map (fun v => v.id))
        = List.replicate 1000 "v1"
      rw [List.filter_append, List.filter_replicate,
          if_pos (show (villageR1.district == "Ranchi") = true from rfl),
          show [villageB].filter (fun v => v.district == "Ranchi") = [villageB] from rfl,
          List.take_append_eq_append_take, List.take_replicate, List.length_replicate,
          Nat.sub_self, List.take_zero, List.append_nil,
          show min 1000 1000 = 1000 from rfl, List.map_replicate]
      rfl
    have hmatch : claimVillageMatch dbBeyond none verifierRanchi scB = false := by
      unfold claimVillageMatch
      rw [if_pos (show (verifierRanchi.role != "admin" && truthyOS verifierRanchi.district)
          = true from rfl)]
      show (districtVillageIds dbBeyond "Ranchi").contains "vb" = false
      rw [hd]
      exact contains_replicate_ne "v1" "vb" 1000 (by decide)
    have hpred : (claimStatusMatch none scB
        && claimVillageMatch dbBeyond none verifierRanchi scB) = false := by
      rw [hmatch, Bool.and_false]
    refine ⟨rfl, ?_, rfl, rfl, by decide, ?_⟩
    · show villageB ∈ List.replicate 1000 villageR1 ++ [villageB]
      exact List.mem_append_right _ (List.mem_singleton.mpr rfl)
    · show ((sortByDateDesc ([scB].filter (fun c => claimStatusMatch none c
          && claimVillageMatch dbBeyond none verifierRanchi c))).take 1000).map
          (fun c => c.claim) = []
      rw [show [scB].filter (fun c => claimStatusMatch none c
          && claimVillageMatch dbBeyond none verifierRanchi c) = [] from by
        simp only [List.filter_cons, List.filter_nil, hpred, Bool.false_eq_true, if_false]]
      rfl

/-! ## C1 — jurisdiction scoping of GET /claims -/

/-- C1 counterexample: the Ranchi-scoped verifier lists claims with the
filter `village_id = "v1"`, yet the claim `c2` on village `v2` appears in the
result — the handler *overwrites* the `village_id` query key with the
district `$in` restriction (line 273 replaces the entry written at line 265),
so the result is not restricted to claims matching the supplied `village_id`
filter, contradicting the claim as stated. -/
theorem C1_counterexample :
    scR2.claim ∈ get_forest_claims dbC1 none (some "v1") verifierRanchi ∧
    scR2.claim.village_id = "v2" ∧ verifierRanchi.role ≠ "admin" ∧
    verifierRanchi.district = some "Ranchi" ∧
    (∀ sc ∈ dbC1.forest_claims, sc.claim.village_id = "v2" → sc = scR2) := by
  have h : get_forest_claims dbC1 none (some "v1") verifierRanchi
      = [scR1.claim, scR2.claim] := rfl
  refine ⟨?_, rfl, by decide, rfl, ?_⟩
  · rw [h]
    exact List.mem_cons_of_mem _ (List.mem_cons_self _ _)
  · intro sc hmem hv
    have h2 : sc = scR1 ∨ sc = scR2 := by simpa [dbC1] using hmem
    rcases h2 with h1 | h1
    · subst h1
      exact absurd hv (by decide)
    · exact h1

/-- C1 (amended): for a caller whose role is not admin and whose district is
set (truthy), the returned sequence consists exactly of the claims matching
the supplied optional status filter whose `village_id` is among the district's
(first 1000) village identifiers — the supplied `village_id` filter is
*replaced* by the district restriction, not intersected with it; out-of-
jurisdiction claims are silently omitted with no error; and an admin caller's
results are exactly those matching the supplied status and `village_id`
filters, with no district restriction.  (Stated as a membership
characterization, below the 1000-record cap.) -/
theorem C1_jurisdiction_scoping (db : DB) (status village_id : Option String) (u : User)
    (hlen : db.forest_claims.length ≤ 1000) (c : ForestClaim) :
    (u.role ≠ "admin" → truthyOS u.district = true →
      (c ∈ get_forest_claims db status village_id u ↔
        ∃ sc ∈ db.forest_claims, sc.claim = c ∧ claimStatusMatch status sc = true ∧
          c.village_id ∈ districtVillageIds db (u.district.getD ""))) ∧
    (u.role = "admin" →
      (c ∈ get_forest_claims db status village_id u ↔
        ∃ sc ∈ db.forest_claims, sc.claim = c ∧ claimStatusMatch status sc = true ∧
          claimVillageIdMatch village_id sc = true)) := by
  have hlen' : ∀ p : StoredClaim → Bool,
      ((sortByDateDesc (db.forest_claims.filter p)).take 1000)
        = sortByDateDesc (db.forest_claims.filter p) := by
    intro p
    exact List.take_of_length_le (by
      rw [length_sortByDateDesc]
      exact le_trans (List.length_filter_le _ _) hlen)
  constructor
  · intro hrole hdist
    have hcond : (u.role != "admin" && truthyOS u.district) = true := by
      rw [hdist, Bool.and_true, bne_iff_ne]
      exact hrole
    rw [get_forest_claims, hlen']
    constructor
    · intro hmem
      rcases List.mem_map.mp hmem with ⟨sc, hsc, hceq⟩
      rw [mem_sortByDateDesc] at hsc
      rcases List.mem_filter.mp hsc with ⟨hscdb, hp⟩
      rw [Bool.and_eq_true] at hp
      rcases hp with ⟨hst, hvm⟩
      rw [claimVillageMatch, if_pos hcond] at hvm
      refine ⟨sc, hscdb, hceq, hst, ?_⟩
      rw [← hceq]
      exact (contains_iff_mem_str _ _).mp hvm
    · rintro ⟨sc, hscdb, hceq, hst, hvid⟩
      refine List.mem_map.mpr ⟨sc, ?_, hceq⟩
      rw [mem_sortByDateDesc]
      refine List.mem_filter.mpr ⟨hscdb, ?_⟩
      rw [Bool.and_eq_true, claimVillageMatch, if_pos hcond]
      exact ⟨hst, (contains_iff_mem_str _ _).mpr (hceq ▸ hvid)⟩
  · intro hrole
    have hcond : (u.role != "admin" && truthyOS u.district) = false := by
      rw [hrole]
      simp
    rw [get_forest_claims, hlen']
    constructor
    · intro hmem
      rcases List.mem_map.mp hmem with ⟨sc, hsc, hceq⟩
      rw [mem_sortByDateDesc] at hsc
      rcases List.mem_filter.mp hsc with ⟨hscdb, hp⟩
      rw [Bool.and_eq_true] at hp
      rcases hp with ⟨hst, hvm⟩
      rw [claimVillageMatch, if_neg (by rw [hcond]; exact Bool.false_ne_true)] at hvm
      exact ⟨sc, hscdb, hceq, hst, hvm⟩
    · rintro ⟨sc, hscdb, hceq, hst, hvid⟩
      refine List.mem_map.mpr ⟨sc, ?_, hceq⟩
      rw [mem_sortByDateDesc]
      refine List.mem_filter.mpr ⟨hscdb, ?_⟩
      rw [Bool.and_eq_true, claimVillageMatch, if_neg (by rw [hcond]; exact
        Bool.false_ne_true)]
      exact ⟨hst, hvid⟩

/-- C1 witness: the amended characterization at the concrete database `dbC1`:
for the Ranchi verifier with supplied filter `village_id = "v1"`, the claim
`c2` (village `v2`) is in the result because its village is in the district —
and for the admin, `c2` is not in the result because the supplied filter is
applied. -/
theorem C1_witness :
    scR2.claim ∈ get_forest_claims dbC1 none (some "v1") verifierRanchi ∧
    scR2.claim ∉ get_forest_claims dbC1 none (some "v1") adminUser := by
  constructor
  · exact ((C1_jurisdiction_scoping dbC1 none (some "v1") verifierRanchi (by decide)
      scR2.claim).1 (by decide) rfl).mpr
      ⟨scR2, List.mem_cons_of_mem _ (List.mem_cons_self _ _), rfl, rfl, by decide⟩
  · intro hmem
    rcases ((C1_jurisdiction_scoping dbC1 none (some "v1") adminUser (by decide)
      scR2.claim).2 rfl).mp hmem with ⟨sc, hscdb, hceq, _, hvid⟩
    have h2 : sc = scR1 ∨ sc = scR2 := by simpa [dbC1] using hscdb
    rcases h2 with h1 | h1
    · rw [h1] at hceq
      exact absurd (congrArg (fun c => c.village_id) hceq) (by decide)
    · rw [h1] at hvid
      exact absurd hvid (by decide)

/-! ## C5 — frame conditions of PUT /claims/{id}/status -/

/-- C5: for an authorized (admin/officer) status update on an existing claim,
only `status` and `last_updated` are always written (`status` overwritten to
the requested value, `last_updated` set to the call-time clock); `notes` and
`ai_recommendation` are written only when supplied truthy in the request,
each as a field-level replacement; every other field of the stored claim
document, and every other document, is left untouched; and the call fails
with 404 Not Found when no claim with the identifier exists. -/
theorem C5_update_status_frame (db : DB) (claim_id : String) (upd : CaseUpdate)
    (now : Nat) (u : User) (hrole : u.role = "admin" ∨ u.role = "officer") :
    ((∀ sc ∈ db.forest_claims, sc.claim.id ≠ claim_id) →
       update_claim_status db claim_id upd now u
         = .error { status_code := 404, detail := "Claim not found" }) ∧
    (∀ pre sc post, db.forest_claims = pre ++ sc :: post → sc.claim.id = claim_id →
       (∀ sc' ∈ pre, sc'.claim.id ≠ claim_id) →
       ∃ sc' : StoredClaim,
         update_claim_status db claim_id upd now u
           = .ok ({ db with forest_claims := pre ++ sc' :: post },
                  "Claim status updated successfully") ∧
         sc'.claim.status = upd.status ∧
         sc'.claim.last_updated = now ∧
         (truthyOS upd.notes = true → sc'.notes = upd.notes) ∧
         (truthyOS upd.notes = false → sc'.notes = sc.notes) ∧
         (truthyOV upd.ai_recommendation = true →
            sc'.claim.ai_recommendation = upd.ai_recommendation) ∧
         (truthyOV upd.ai_recommendation = false →
            sc'.claim.ai_recommendation = sc.claim.ai_recommendation) ∧
         sc'.claim.id = sc.claim.id ∧
         sc'.claim.claim_type = sc.claim.claim_type ∧
         sc'.claim.claim_number = sc.claim.claim_number ∧
         sc'.claim.village_id = sc.claim.village_id ∧
         sc'.claim.village_name = sc.claim.village_name ∧
         sc'.claim.beneficiary_name = sc.claim.beneficiary_name ∧
         sc'.claim.beneficiary_father_name = sc.claim.beneficiary_father_name ∧
         sc'.claim.area_claimed = sc.claim.area_claimed ∧
         sc'.claim.coordinates = sc.claim.coordinates ∧
         sc'.claim.submitted_date = sc.claim.submitted_date ∧
         sc'.claim.assigned_officer = sc.claim.assigned_officer ∧
         sc'.claim.ocr_documents = sc.claim.ocr_documents ∧
         sc'.claim.linked_schemes = sc.claim.linked_schemes) := by
  have hcond : (!(u.role == "admin" || u.role == "officer")) = false := by
    rcases hrole with h | h <;> rw [h] <;> rfl
  constructor
  · intro hnone
    have hfind : db.forest_claims.find? (fun c => c.claim.id == claim_id) = none := by
      rw [List.find?_eq_none]
      intro x hx
      simp only [beq_iff_eq]
      exact hnone x hx
    simp only [update_claim_status, hcond, Bool.false_eq_true, if_false, hfind]
  · intro pre sc post hdecomp hid hpre
    have hp : (fun c : StoredClaim => c.claim.id == claim_id) sc = true := by
      simp only [beq_iff_eq]
      exact hid
    have hpre' : ∀ y ∈ pre, (fun c : StoredClaim => c.claim.id == claim_id) y
        = false := by
      intro y hy
      simp only [beq_eq_false_iff_ne, ne_eq]
      exact hpre y hy
    have hfind : db.forest_claims.find? (fun c => c.claim.id == claim_id) = some sc := by
      rw [hdecomp]
      exact find?_decomp _ pre post sc hpre' hp
    have hupd : updateFirst (fun c => c.claim.id == claim_id) (applyCaseUpdate upd now)
        db.forest_claims = pre ++ applyCaseUpdate upd now sc :: post := by
      rw [hdecomp]
      exact updateFirst_decomp _ _ pre post sc hpre' hp
    refine ⟨applyCaseUpdate upd now sc, ?_, rfl, rfl, ?_, ?_, ?_, ?_, rfl, rfl, rfl,
      rfl, rfl, rfl, rfl, rfl, rfl, rfl, rfl, rfl, rfl⟩
    · simp only [update_claim_status, hcond, Bool.false_eq_true, if_false, hfind, hupd]
    · intro h
      simp [applyCaseUpdate, h]
    · intro h
      simp [applyCaseUpdate, h]
    · intro h
      simp [applyCaseUpdate, h]
    · intro h
      simp [applyCaseUpdate, h]

/-- C5 witness: the frame theorem at a concrete admin update of claim `c1` in
`dbC1` (decomposition `[] ++ scR1 :: [scR2]`), supplying a truthy note. -/
theorem C5_witness :
    ∃ sc' : StoredClaim,
      update_claim_status dbC1 "c1" { status := "approved", notes := some "ok" } 500
          adminUser
        = .ok ({ dbC1 with forest_claims := [] ++ sc' :: [scR2] },
               "Claim status updated successfully") ∧
      sc'.claim.status = "approved" ∧ sc'.claim.last_updated = 500 ∧
      sc'.notes = some "ok" ∧ sc'.claim.submitted_date = scR1.claim.submitted_date := by
  rcases (C5_update_status_frame dbC1 "c1" { status := "approved", notes := some "ok" }
      500 adminUser (Or.inl rfl)).2 [] scR1 [scR2] rfl rfl
      (by intro y hy; cases hy) with
    ⟨sc', heq, hst, hlu, hnT, _, _, _, _, _, _, _, _, _, _, _, _, hsub, _, _, _⟩
  exact ⟨sc', heq, hst, hlu, hnT (by decide), hsub⟩

/-! ## C6 — unconditional status overwrite, idempotence, monotone timestamps -/

/-- C6: the status update performs an unconditional overwrite with no
transition-legality check — for any stored claim and any requested update an
authorized call succeeds regardless of the current status; and updating a
claim's status twice to the same value leaves the status unchanged after the
second call, with `last_updated` monotonically increasing across the calls. -/
theorem C6_overwrite_idempotent (db : DB) (claim_id s : String) (t1 t2 : Nat)
    (u : User) (hrole : u.role = "admin" ∨ u.role = "officer")
    (hfound : (db.forest_claims.find? (fun c => c.claim.id == claim_id)).isSome)
    (hmono : t1 ≤ t2) :
    (∀ (upd : CaseUpdate) (now : Nat), ∃ r,
       update_claim_status db claim_id upd now u = .ok r) ∧
    (∃ db1 db2 sc1 sc2,
       update_claim_status db claim_id { status := s } t1 u
         = .ok (db1, "Claim status updated successfully") ∧
       update_claim_status db1 claim_id { status := s } t2 u
         = .ok (db2, "Claim status updated successfully") ∧
       db1.forest_claims.find? (fun c => c.claim.id == claim_id) = some sc1 ∧
       db2.forest_claims.find? (fun c => c.claim.id == claim_id) = some sc2 ∧
       sc1.claim.status = s ∧ sc2.claim.status = s ∧
       sc2.claim.status = sc1.claim.status ∧
       sc1.claim.last_updated = t1 ∧ sc2.claim.last_updated = t2 ∧
       sc1.claim.last_updated ≤ sc2.claim.last_updated) := by
  have hcond : (!(u.role == "admin" || u.role == "officer")) = false := by
    rcases hrole with h | h <;> rw [h] <;> rfl
  rcases Option.isSome_iff_exists.mp hfound with ⟨sc0, hfind0⟩
  have hp0 : (fun c : StoredClaim => c.claim.id == claim_id) sc0 = true :=
    find?_some_pred (fun c => c.claim.id == claim_id) db.forest_claims sc0 hfind0
  constructor
  · intro upd now
    refine ⟨({ db with forest_claims := (updateFirst (fun c => c.claim.id == claim_id)
        (applyCaseUpdate upd now) db.forest_claims) },
        "Claim status updated successfully"), ?_⟩
    simp only [update_claim_status, hcond, Bool.false_eq_true, if_false, hfind0]
  · have hfind1 : (updateFirst (fun c => c.claim.id == claim_id)
        (applyCaseUpdate { status := s } t1) db.forest_claims).find?
        (fun c => c.claim.id == claim_id)
        = some (applyCaseUpdate { status := s } t1 sc0) :=
      find?_updateFirst _ _ _ sc0 hfind0 hp0
    have hfind2 : (updateFirst (fun c => c.claim.id == claim_id)
        (applyCaseUpdate { status := s } t2)
          (updateFirst (fun c => c.claim.id == claim_id)
            (applyCaseUpdate { status := s } t1) db.forest_claims)).find?
        (fun c => c.claim.id == claim_id)
        = some (applyCaseUpdate { status := s } t2
            (applyCaseUpdate { status := s } t1 sc0)) :=
      find?_updateFirst _ _ _ _ hfind1 hp0
    refine ⟨{ db with forest_claims := (updateFirst (fun c => c.claim.id == claim_id)
        (applyCaseUpdate { status := s } t1) db.forest_claims) },
      { db with forest_claims := (updateFirst (fun c => c.claim.id == claim_id)
          (applyCaseUpdate { status := s } t2)
          (updateFirst (fun c => c.claim.id == claim_id)
            (applyCaseUpdate { status := s } t1) db.forest_claims)) },
      applyCaseUpdate { status := s } t1 sc0,
      applyCaseUpdate { status := s } t2 (applyCaseUpdate { status := s } t1 sc0),
      ?_, ?_, hfind1, hfind2, rfl, rfl, rfl, rfl, rfl, hmono⟩
    · simp only [update_claim_status, hcond, Bool.false_eq_true, if_false, hfind0]
    · simp only [update_claim_status, hcond, Bool.false_eq_true, if_false, hfind1]

/-- C6 witness: the theorem at a concrete double update of claim `c2` in
`dbC1` to `under_review` at times 600 and 700, plus an unconditional
overwrite to `approved` at 650. -/
theorem C6_witness :
    (∃ r, update_claim_status dbC1 "c2" { status := "approved" } 650 officerUser
        = .ok r) ∧
    (∃ db1 db2 sc1 sc2,
       update_claim_status dbC1 "c2" { status := "under_review" } 600 officerUser
         = .ok (db1, "Claim status updated successfully") ∧
       update_claim_status db1 "c2" { status := "under_review" } 700 officerUser
         = .ok (db2, "Claim status updated successfully") ∧
       db1.forest_claims.find? (fun c => c.claim.id == "c2") = some sc1 ∧
       db2.forest_claims.find? (fun c => c.claim.id == "c2") = some sc2 ∧
       sc1.claim.status = "under_review" ∧ sc2.claim.status = "under_review" ∧
       sc2.claim.status = sc1.claim.status ∧
       sc1.claim.last_updated = 600 ∧ sc2.claim.last_updated = 700 ∧
       sc1.claim.last_updated ≤ sc2.claim.last_updated) := by
  have h := C6_overwrite_idempotent dbC1 "c2" "under_review" 600 700 officerUser
    (Or.inr rfl) (by rfl) (by decide)
  exact ⟨h.1 { status := "approved" } 650, h.2⟩

/-! ## Claim-number formatting lemmas -/

theorem digitChar_isDigit (n : Nat) : isAsciiDigit (digitChar n) = true := by
  unfold digitChar
  split <;> decide

theorem hexDigitUpper_isHex (n : Nat) : isUpperHexDigit (hexDigitUpper n) = true := by
  unfold hexDigitUpper
  split <;> decide

theorem replicate_zero_digits (n : Nat) :
    (List.replicate n '0').all isAsciiDigit = true := by
  induction n with
  | zero => rfl
  | succ k ih =>
    rw [List.replicate_succ, List.all_cons, ih]
    decide

theorem decCharsAux_digits (fuel : Nat) : ∀ (n : Nat) (acc : List Char),
    acc.all isAsciiDigit = true → (decCharsAux fuel n acc).all isAsciiDigit = true := by
  induction fuel with
  | zero => intro n acc h; exact h
  | succ f ih =>
    intro n acc h
    unfold decCharsAux
    split
    · rw [List.all_cons, digitChar_isDigit, h]
      rfl
    · exact ih _ _ (by rw [List.all_cons, digitChar_isDigit, h]; rfl)

theorem decChars_digits (n : Nat) : (decChars n).all isAsciiDigit = true :=
  decCharsAux_digits (n + 1) n [] rfl

theorem decCharsAux_length_le (k : Nat) : ∀ (fuel n : Nat) (acc : List Char),
    n < 10 ^ k → 1 ≤ k → (decCharsAux fuel n acc).length ≤ k + acc.length := by
  induction k with
  | zero =>
    intro fuel n acc _ h1
    exact absurd h1 (by omega)
  | succ k ih =>
    intro fuel n acc hn _
    cases fuel with
    | zero =>
      rw [decCharsAux]
      omega
    | succ f =>
      rw [decCharsAux]
      split
      · rw [List.length_cons]
        omega
      · rename_i hge
        have hk : 1 ≤ k := by
          by_contra hk0
          have hk1 : k = 0 := by omega
          rw [hk1] at hn
          exact hge (by omega)
        have hdiv : n / 10 < 10 ^ k := by
          rw [Nat.div_lt_iff_lt_mul (by omega)]
          calc n < 10 ^ (k + 1) := hn
            _ = 10 ^ k * 10 := by rw [pow_succ]
        have := ih f (n / 10) (digitChar (n % 10) :: acc) hdiv hk
        rw [List.length_cons] at this
        omega

theorem decChars_length_le (k n : Nat) (hn : n < 10 ^ k) (hk : 1 ≤ k) :
    (decChars n).length ≤ k := by
  have := decCharsAux_length_le k (n + 1) n [] hn hk
  simpa using this

theorem padLeft_length (w : Nat) (cs : List Char) (h : cs.length ≤ w) :
    (padLeft w cs).length = w := by
  unfold padLeft
  rw [List.length_append, List.length_replicate]
  omega

theorem padLeft_digits (w : Nat) (cs : List Char) (h : cs.all isAsciiDigit = true) :
    (padLeft w cs).all isAsciiDigit = true := by
  unfold padLeft
  rw [List.all_append, replicate_zero_digits, h]
  rfl

theorem dateChars_length (d : Date) (hy : d.year < 10000) (hm : d.month < 100)
    (hd : d.day < 100) : (dateChars d).length = 8 := by
  unfold dateChars
  rw [List.length_append, List.length_append,
      padLeft_length 4 _ (decChars_length_le 4 _ (lt_of_lt_of_le hy (by norm_num))
        (by omega)),
      padLeft_length 2 _ (decChars_length_le 2 _ (lt_of_lt_of_le hm (by norm_num))
        (by omega)),
      padLeft_length 2 _ (decChars_length_le 2 _ (lt_of_lt_of_le hd (by norm_num))
        (by omega))]

theorem dateChars_digits (d : Date) : (dateChars d).all isAsciiDigit = true := by
  unfold dateChars
  rw [List.all_append, List.all_append,
      padLeft_digits _ _ (decChars_digits _), padLeft_digits _ _ (decChars_digits _),
      padLeft_digits _ _ (decChars_digits _)]
  rfl

theorem uuidHex8_hex (u : Nat) : (uuidHex8 u).all isUpperHexDigit = true := by
  unfold uuidHex8
  simp [List.all_cons, hexDigitUpper_isHex]

/-- The generated claim number matches the spec's anchored pattern whenever
the date fields are within `strftime` field widths. -/
theorem claimNumber_format (d : Date) (u : Nat) (hy : d.year < 10000)
    (hm : d.month < 100) (hd : d.day < 100) :
    claimNumberFormatOK (claimNumberStr d u) = true := by
  have hcs : (claimNumberStr d u).toList = claimNumberChars d u := rfl
  have hlen : (dateChars d).length = 8 := dateChars_length d hy hm hd
  unfold claimNumberFormatOK
  rw [hcs]
  simp only [Bool.and_eq_true]
  refine ⟨⟨⟨⟨?_, ?_⟩, ?_⟩, ?_⟩, ?_⟩
  · show ((claimNumberChars d u).length == 21) = true
    unfold claimNumberChars
    simp only [List.length_cons, List.length_append, hlen]
    rfl
  · rfl
  · show ((dateChars d ++ '-' :: uuidHex8 u).take 8).all isAsciiDigit = true
    rw [← hlen, List.take_left]
    exact dateChars_digits d
  · show (((dateChars d ++ '-' :: uuidHex8 u).drop 8).take 1 == ['-']) = true
    rw [← hlen, List.drop_left]
    rfl
  · show ((dateChars d ++ '-' :: uuidHex8 u).drop 9).all isUpperHexDigit = true
    rw [show (9 : Nat) = (dateChars d).length + 1 from by rw [hlen], List.drop_append]
    exact uuidHex8_hex u

theorem hexDigitUpper_inj : ∀ a < 16, ∀ b < 16,
    hexDigitUpper a = hexDigitUpper b → a = b := by
  decide

/-- The first 8 hex characters of the UUID rendering determine (exactly) the
top 32 bits of the 128-bit value. -/
theorem uuidHex8_inj (x y : Nat) (h : uuidHex8 x = uuidHex8 y) :
    x >>> 96 % 2 ^ 32 = y >>> 96 % 2 ^ 32 := by
  unfold uuidHex8 at h
  simp only [List.cons.injEq, and_true] at h
  obtain ⟨h1, h2, h3, h4, h5, h6, h7, h8⟩ := h
  have e1 := hexDigitUpper_inj _ (Nat.mod_lt _ (by omega)) _ (Nat.mod_lt _ (by omega)) h1
  have e2 := hexDigitUpper_inj _ (Nat.mod_lt _ (by omega)) _ (Nat.mod_lt _ (by omega)) h2
  have e3 := hexDigitUpper_inj _ (Nat.mod_lt _ (by omega)) _ (Nat.mod_lt _ (by omega)) h3
  have e4 := hexDigitUpper_inj _ (Nat.mod_lt _ (by omega)) _ (Nat.mod_lt _ (by omega)) h4
  have e5 := hexDigitUpper_inj _ (Nat.mod_lt _ (by omega)) _ (Nat.mod_lt _ (by omega)) h5
  have e6 := hexDigitUpper_inj _ (Nat.mod_lt _ (by omega)) _ (Nat.mod_lt _ (by omega)) h6
  have e7 := hexDigitUpper_inj _ (Nat.mod_lt _ (by omega)) _ (Nat.mod_lt _ (by omega)) h7
  have e8 := hexDigitUpper_inj _ (Nat.mod_lt _ (by omega)) _ (Nat.mod_lt _ (by omega)) h8
  rw [show (124 : Nat) = 96 + 28 from rfl, Nat.shiftRight_add, Nat.shiftRight_add] at e1
  rw [show (120 : Nat) = 96 + 24 from rfl, Nat.shiftRight_add, Nat.shiftRight_add] at e2
  rw [show (116 : Nat) = 96 + 20 from rfl, Nat.shiftRight_add, Nat.shiftRight_add] at e3
  rw [show (112 : Nat) = 96 + 16 from rfl, Nat.shiftRight_add, Nat.shiftRight_add] at e4
  rw [show (108 : Nat) = 96 + 12 from rfl, Nat.shiftRight_add, Nat.shiftRight_add] at e5
  rw [show (104 : Nat) = 96 + 8 from rfl, Nat.shiftRight_add, Nat.shiftRight_add] at e6
  rw [show (100 : Nat) = 96 + 4 from rfl, Nat.shiftRight_add, Nat.shiftRight_add] at e7
  generalize hX : x >>> 96 = X at e1 e2 e3 e4 e5 e6 e7 e8 ⊢
  generalize hY : y >>> 96 = Y at e1 e2 e3 e4 e5 e6 e7 e8 ⊢
  simp only [Nat.shiftRight_eq_div_pow] at e1 e2 e3 e4 e5 e6 e7 e8
  norm_num at e1 e2 e3 e4 e5 e6 e7 e8
  omega

/-! ## C3 — generated claim number, status and timestamps -/

/-- C3 counterexample.  The claim number is built from `datetime.now()` — the
naive server-local clock — not from the UTC clock used for `submitted_date`.
On a server whose local timezone is ahead of UTC, just after local midnight
of 2024-01-01 the local date reads 2024-01-01 while the UTC calendar date is
still 2023-12-31: the code produces `FRA-20240101-…`, whereas the claim's
"current UTC date" demands `FRA-20231231-…`.  Moreover only the first 8 hex
digits of the fresh identifier enter the number, so the distinct identifiers
0 and 1 (which agree on their top 32 bits) collide, refuting unconditional
uniqueness across repeated creations. -/
theorem C3_counterexample :
    (∃ db' c, create_forest_claim {} ccBody adminUser { year := 2024, month := 1, day := 1 }
        1703980000 0 "cid" = .ok (db', c) ∧
      c.claim_number = "FRA-20240101-00000000" ∧
      c.claim_number ≠ claimNumberStr { year := 2023, month := 12, day := 31 } 0) ∧
    claimNumberStr { year := 2024, month := 1, day := 1 } 1
      = claimNumberStr { year := 2024, month := 1, day := 1 } 0 ∧ (1 : Nat) ≠ 0 := by
  refine ⟨⟨_, _, rfl, by decide, by decide⟩, by decide, by decide⟩

/-- C3 (amended): every successful claim creation returns a claim whose
`claim_number` is `FRA-` + the *server-local* current date as YYYYMMDD + `-` +
the first 8 uppercase hex digits of the fresh random identifier; it matches
`FRA-\d{8}-[0-9A-F]{8}` (for dates within `strftime` field widths) and is
unique across repeated creations whenever the fresh identifiers differ in
their top 32 bits (the rendered 8-digit prefix); `status` is `pending` and
`submitted_date` (and `last_updated`) are the current UTC time at creation. -/
theorem C3_claim_creation (db : DB) (cd : ClaimCreate) (u : User) (nowLocal : Date)
    (nowUtc numUuid : Nat) (freshId : String)
    (hrole : u.role = "admin" ∨ u.role = "officer" ∨ u.role = "verifier")
    (hy : nowLocal.year < 10000) (hm : nowLocal.month < 100) (hd : nowLocal.day < 100) :
    ∃ db' c, create_forest_claim db cd u nowLocal nowUtc numUuid freshId = .ok (db', c) ∧
      c.claim_number = claimNumberStr nowLocal numUuid ∧
      claimNumberFormatOK c.claim_number = true ∧
      c.status = "pending" ∧ c.submitted_date = nowUtc ∧ c.last_updated = nowUtc ∧
      (∀ numUuid2 : Nat, numUuid2 >>> 96 % 2 ^ 32 ≠ numUuid >>> 96 % 2 ^ 32 →
        claimNumberStr nowLocal numUuid2 ≠ c.claim_number) := by
  have hcond : (!(u.role == "admin" || u.role == "officer" || u.role == "verifier"))
      = false := by
    rcases hrole with h | h | h <;> rw [h] <;> rfl
  refine ⟨{ db with forest_claims := db.forest_claims
        ++ [{ claim := newForestClaim cd u nowLocal nowUtc numUuid freshId,
              notes := none }] },
      newForestClaim cd u nowLocal nowUtc numUuid freshId, ?_, rfl,
      claimNumber_format nowLocal numUuid hy hm hd, rfl, rfl, rfl, ?_⟩
  · simp only [create_forest_claim, hcond, Bool.false_eq_true, if_false]
  · intro n2 hne heq
    apply hne
    apply uuidHex8_inj
    have hlist : claimNumberChars nowLocal n2 = claimNumberChars nowLocal numUuid :=
      congrArg String.toList heq
    unfold claimNumberChars at hlist
    simp only [List.cons.injEq, true_and] at hlist
    have := List.append_cancel_left hlist
    simp only [List.cons.injEq, true_and] at this
    exact this

/-- C3 witness: the amended theorem at a concrete verifier creation. -/
theorem C3_witness :
    ∃ db' c, create_forest_claim dbC1 ccBody verifierRanchi
        { year := 2024, month := 9, day := 1 } 300 7 "cid2" = .ok (db', c) ∧
      c.claim_number = claimNumberStr { year := 2024, month := 9, day := 1 } 7 ∧
      claimNumberFormatOK c.claim_number = true ∧
      c.status = "pending" ∧ c.submitted_date = 300 ∧ c.last_updated = 300 ∧
      (∀ numUuid2 : Nat, numUuid2 >>> 96 % 2 ^ 32 ≠ 7 >>> 96 % 2 ^ 32 →
        claimNumberStr { year := 2024, month := 9, day := 1 } numUuid2 ≠ c.claim_number) :=
  C3_claim_creation dbC1 ccBody verifierRanchi { year := 2024, month := 9, day := 1 }
    300 7 "cid2" (Or.inr (Or.inr rfl)) (by decide) (by decide) (by decide)

/-! ## C8 — the password hash is never serialized to clients -/



theorem not_mem_filter_keys (doc : List (String × Val)) (k : String)
    (hk : (k == "_id" || k == "hashed_password") = true) :
    k ∉ (doc.filter (fun kv => !(kv.1 == "_id" || kv.1 == "hashed_password"))).map
      Prod.fst := by
  intro hmem
  rcases List.mem_map.mp hmem with ⟨kv, hkv, hfst⟩
  have hp := (List.mem_filter.mp hkv).2
  rw [hfst, hk] at hp
  exact absurd hp (by decide)

/-- C8 counterexample: on the register path the hash is in fact *not* stored
with the user record — `User(**user_dict)` silently drops the extra
`hashed_password` key (pydantic ignores unknown constructor arguments) and
`insert_one(user.dict())` persists only the model fields.  Registering
`alice` on an empty store yields a stored document without any
`hashed_password` key, contradicting the claim's premise that "the hash is
stored with the user record".  (The serialization conclusion itself holds —
see the amended theorem.) -/
theorem C8_counterexample :
    register_user {} regReq "uid-1" 0 "m1"
      = .ok ({ users := [{ user := aliceUser, hashed_password := none,
                           mongoId := "m1" }] }, aliceUser) ∧
    "hashed_password" ∉ (StoredUser.rawDoc
        { user := aliceUser, hashed_password := none, mongoId := "m1" }).map Prod.fst := by
  exact ⟨rfl, by decide⟩

/-- C8 (amended): the hashed password is never serialized to clients — the
register and `/auth/me` responses are `User`-model payloads, which have no
`hashed_password` field at all; a successful login response's user payload
excludes both `hashed_password` and the store's internal `_id` key.  However
the hash is only stored with records seeded outside the register path: a
successful registration persists a record with *no* `hashed_password` key
(the hash is dropped before insertion). -/
theorem C8_no_hash_serialized :
    (∀ u : User, "hashed_password" ∉ (User.dictDoc u).map Prod.fst) ∧
    (∀ db ld now tok, login_user db ld now = .ok tok →
       "hashed_password" ∉ tok.user.map Prod.fst ∧ "_id" ∉ tok.user.map Prod.fst) ∧
    (∀ db ud freshId now mid db' usr,
       register_user db ud freshId now mid = .ok (db', usr) →
       ∃ su, db'.users = db.users ++ [su] ∧ su.user = usr ∧ su.hashed_password = none ∧
         "hashed_password" ∉ su.rawDoc.map Prod.fst) := by
  refine ⟨?_, ?_, ?_⟩
  · intro u
    simp [User.dictDoc]
  · intro db ld now tok h
    unfold login_user at h
    split at h
    · simp at h
    · split at h
      · simp at h
      · split at h
        · simp at h
        · split at h
          · simp at h
          · rw [Except.ok.injEq] at h
            subst h
            exact ⟨not_mem_filter_keys _ _ (by decide),
                   not_mem_filter_keys _ _ (by decide)⟩
  · intro db ud freshId now mid db' usr h
    unfold register_user at h
    split at h
    · simp at h
    · rw [Except.ok.injEq, Prod.mk.injEq] at h
      obtain ⟨h1, h2⟩ := h
      refine ⟨{ user := registeredUser ud freshId now, hashed_password := none,
                mongoId := mid }, ?_, h2, rfl, ?_⟩
      · rw [← h1]
      · simp [StoredUser.rawDoc, User.dictDoc]

/-- C8 witness: the amended theorem at concrete inputs — the admin's model
payload, a successful admin login over `dbAuth`, and the registration of
`alice` on an empty store. -/
theorem C8_witness :
    "hashed_password" ∉ (User.dictDoc adminUser).map Prod.fst ∧
    (∃ tok, login_user dbAuth { username := "admin", password := "admin123" } 0
        = .ok tok ∧
      "hashed_password" ∉ tok.user.map Prod.fst ∧ "_id" ∉ tok.user.map Prod.fst) ∧
    (∃ db' usr su, register_user {} regReq "uid-1" 0 "m1" = .ok (db', usr) ∧
      db'.users = ([] : List StoredUser) ++ [su] ∧ su.user = usr ∧
      su.hashed_password = none ∧ "hashed_password" ∉ su.rawDoc.map Prod.fst) := by
  have hlog : ∃ tok, login_user dbAuth { username := "admin", password := "admin123" } 0
      = .ok tok := ⟨_, rfl⟩
  rcases hlog with ⟨tok, htok⟩
  have hreg : ∃ r, register_user {} regReq "uid-1" 0 "m1" = .ok r := ⟨_, rfl⟩
  rcases hreg with ⟨r, hr⟩
  refine ⟨C8_no_hash_serialized.1 adminUser,
          ⟨tok, htok, C8_no_hash_serialized.2.1 dbAuth _ 0 tok htok⟩, ?_⟩
  rcases C8_no_hash_serialized.2.2 {} regReq "uid-1" 0 "m1" r.1 r.2 (by rw [hr]) with
    ⟨su, h1, h2, h3, h4⟩
  exact ⟨r.1, r.2, su, by rw [hr], h1, h2, h3, h4⟩

end FRA
